import Mathlib

/-!
Verification of the physics-backend abstraction layer of gazebo-classic
(files `src/physics/PhysicsEngine.hh` and `src/physics/bullet/BulletJoint.hh`).

The contact registry is `std::map<LinkPtr, LinkPtr> contactPairs` inside
`PhysicsEngine`; link identity is pointer identity, so a `Link` is modelled
as a natural number and the map as a partial function `Link → Option Link`.
`std::map::find`/`insert` semantics: `insert` never overwrites an existing
key, and two maps are equal exactly when they hold the same key/value pairs,
which for the model is extensional equality of the partial functions.
-/

namespace Gazebo

/-- A rigid body handle (`LinkPtr`); identity is pointer identity. -/
abbrev Link : Type := Nat

/-- The `std::map<LinkPtr, LinkPtr>` of `PhysicsEngine::contactPairs`,
as a partial function from keys to values. -/
def ContactMap : Type := Link → Option Link

/-- The empty `contactPairs` map (freshly constructed engine). -/
def ContactMap.empty : ContactMap := fun _ => none

/-- `map.find(k)`: `some v` when key `k` is present with value `v`,
`none` when `find` returns `end()`. -/
def ContactMap.find (m : ContactMap) (k : Link) : Option Link := m k

/-- `map.insert(make_pair(k, v))`: inserts only when the key is absent,
as `std::map::insert` does. In the source every insert is already guarded
by a `find == end()` check, so the guard here is redundant but faithful. -/
def ContactMap.insert (m : ContactMap) (k v : Link) : ContactMap :=
  fun x => if x = k then (if (m k).isSome then m k else some v) else m x

/-- One guarded insert of `AddLinkPair`:
`if (find(l) == end()) insert(make_pair(l, partner))`. -/
def addFirst (m : ContactMap) (l partner : Link) : ContactMap :=
  if (m.find l).isSome then m else m.insert l partner

/--
`PhysicsEngine::AddLinkPair(link1, link2)` (PhysicsEngine.hh:161-168):

    if (this->contactPairs.find(link1) == this->contactPairs.end())
      this->contactPairs.insert(std::make_pair(link1, link2));
    if (this->contactPairs.find(link2) == this->contactPairs.end())
      this->contactPairs.insert(std::make_pair(link2, link1));

The second `find` runs after the first insert may have happened, hence the
nesting of the two guarded inserts.
-/
def AddLinkPair (m : ContactMap) (link1 link2 : Link) : ContactMap :=
  addFirst (addFirst m link1 link2) link2 link1

/--
`PhysicsEngine::AreTouching(link1, link2)` (PhysicsEngine.hh:169-178):

    if ((find(link1) == end() || find(link1)->second != link2) &&
        (find(link2) == end() || find(link2)->second != link1))
      return false;
    else
      return true;
-/
def AreTouching (m : ContactMap) (link1 link2 : Link) : Bool :=
  if ((m.find link1).isNone || decide (m.find link1 ≠ some link2)) &&
     ((m.find link2).isNone || decide (m.find link2 ≠ some link1)) then
    false
  else
    true

/-- Run a sequence of `AddLinkPair` calls starting from the empty registry;
the registry states reachable this way are exactly the reachable states. -/
def runAdds (calls : List (Link × Link)) : ContactMap :=
  calls.foldl (fun m p => AddLinkPair m p.1 p.2) ContactMap.empty

/-!
### Base-class engine contract (PhysicsEngine.hh:60, 81, 111-141)

The abstract base class `PhysicsEngine` stores a world pointer, an SDF
pointer, transport handles, a mutex and the `contactPairs` map. None of the
engine-parameter members has a backing field: the base-class getters are
constants and the base-class setters have empty bodies, so the observable
engine state is whatever fields the object holds. Doubles appear only as
the literal `0`, modelled over `Rat`.
-/

/-- Observable state of a base `PhysicsEngine` object: the gravity vector
comes from a common field read by `GetGravity`, `stepTime` backs the
abstract step-size accessors, and `contactPairs` is the contact registry.
An opaque `backend : Nat` stands for the remaining handle fields. -/
structure PhysicsEngine where
  gravityX : Rat
  gravityY : Rat
  gravityZ : Rat
  stepTime : Rat
  contactPairs : ContactMap
  backend : Nat

/-- `virtual void Reset() {}` (PhysicsEngine.hh:60): empty body. -/
def PhysicsEngine.Reset (e : PhysicsEngine) : PhysicsEngine := e

/-- `virtual void UpdatePhysics() {}` (PhysicsEngine.hh:81): empty body. -/
def PhysicsEngine.UpdatePhysics (e : PhysicsEngine) : PhysicsEngine := e

/-- `virtual void SetWorldCFM(double) {}` (PhysicsEngine.hh:111). -/
def PhysicsEngine.SetWorldCFM (e : PhysicsEngine) (_cfm : Rat) :
    PhysicsEngine := e

/-- `virtual void SetWorldERP(double) {}` (PhysicsEngine.hh:113). -/
def PhysicsEngine.SetWorldERP (e : PhysicsEngine) (_erp : Rat) :
    PhysicsEngine := e

/-- `virtual void SetAutoDisableFlag(bool) {}` (PhysicsEngine.hh:115). -/
def PhysicsEngine.SetAutoDisableFlag (e : PhysicsEngine) (_autoDisable : Bool) :
    PhysicsEngine := e

/-- `virtual void SetSORPGSIters(unsigned int) {}` (PhysicsEngine.hh:117). -/
def PhysicsEngine.SetSORPGSIters (e : PhysicsEngine) (_iters : Nat) :
    PhysicsEngine := e

/-- `virtual void SetSORPGSW(double) {}` (PhysicsEngine.hh:119). -/
def PhysicsEngine.SetSORPGSW (e : PhysicsEngine) (_w : Rat) :
    PhysicsEngine := e

/-- `virtual void SetContactMaxCorrectingVel(double) {}`
(PhysicsEngine.hh:121). -/
def PhysicsEngine.SetContactMaxCorrectingVel (e : PhysicsEngine) (_vel : Rat) :
    PhysicsEngine := e

/-- `virtual void SetContactSurfaceLayer(double) {}` (PhysicsEngine.hh:123). -/
def PhysicsEngine.SetContactSurfaceLayer (e : PhysicsEngine)
    (_layerDepth : Rat) : PhysicsEngine := e

/-- `virtual void SetMaxContacts(double) {}` (PhysicsEngine.hh:125). -/
def PhysicsEngine.SetMaxContacts (e : PhysicsEngine) (_maxContacts : Rat) :
    PhysicsEngine := e

/-- `virtual double GetWorldCFM() {return 0;}` (PhysicsEngine.hh:127). -/
def PhysicsEngine.GetWorldCFM (_e : PhysicsEngine) : Rat := 0

/-- `virtual double GetWorldERP() {return 0;}` (PhysicsEngine.hh:129). -/
def PhysicsEngine.GetWorldERP (_e : PhysicsEngine) : Rat := 0

/-- `virtual bool GetAutoDisableFlag() {return 0;}` (PhysicsEngine.hh:131);
the integer literal `0` converts to the C++ `bool` `false`. -/
def PhysicsEngine.GetAutoDisableFlag (_e : PhysicsEngine) : Bool := false

/-- `virtual int GetSORPGSIters() {return 0;}` (PhysicsEngine.hh:133). -/
def PhysicsEngine.GetSORPGSIters (_e : PhysicsEngine) : Int := 0

/-- `virtual double GetSORPGSW() {return 0;}` (PhysicsEngine.hh:135). -/
def PhysicsEngine.GetSORPGSW (_e : PhysicsEngine) : Rat := 0

/-- `virtual double GetContactMaxCorrectingVel() {return 0;}`
(PhysicsEngine.hh:137). -/
def PhysicsEngine.GetContactMaxCorrectingVel (_e : PhysicsEngine) : Rat := 0

/-- `virtual double GetContactSurfaceLayer() {return 0;}`
(PhysicsEngine.hh:139). -/
def PhysicsEngine.GetContactSurfaceLayer (_e : PhysicsEngine) : Rat := 0

/-- `virtual int GetMaxContacts() {return 0;}` (PhysicsEngine.hh:141). -/
def PhysicsEngine.GetMaxContacts (_e : PhysicsEngine) : Int := 0

/-!
### Bullet joint backend stubs (BulletJoint.hh:69-92)

Each unsupported operation prints `"Not implement in Bullet\n"` to the
`gzerr` stream and either returns `void` (the setters) or returns a
default-constructed `math::Vector3()`, i.e. the zero vector (the getters).
The model threads the emitted `gzerr` messages explicitly and returns the
(possibly updated) joint state so that "does not alter joint state" is a
statement about the model, not an artifact of it.
-/

/-- `math::Vector3`; components over `Rat`, only the literal default
`math::Vector3()` (all components zero) appears in the embedded code. -/
structure Vector3 where
  x : Rat
  y : Rat
  z : Rat
deriving DecidableEq

/-- `math::Vector3()`: the default constructor yields the zero vector. -/
def Vector3.ctor : Vector3 := ⟨0, 0, 0⟩

/-- The `Joint::Attribute` enumeration, opaque here: `SetAttribute` ignores
its value. -/
abbrev JointAttribute : Type := Nat

/-- The message each Bullet stub writes to the `gzerr` stream. -/
def notImplementMsg : String := "Not implement in Bullet\n"

/-- State of a `BulletJoint`: the `btTypedConstraint*` and
`btDynamicsWorld*` members plus the inherited `Joint` state, all opaque
to the stubbed operations. -/
structure BulletJoint where
  constraint : Nat
  world : Nat
  inherited : Nat
deriving DecidableEq

/-- `BulletJoint::SetAnchor(int, const math::Vector3 &)`
(BulletJoint.hh:69-71): `{gzerr << "Not implement in Bullet\n";}` —
returns the unchanged joint and the emitted message. -/
def BulletJoint.SetAnchor (j : BulletJoint) (_index : Int)
    (_anchor : Vector3) : BulletJoint × List String := (j, [notImplementMsg])

/-- `BulletJoint::SetDamping(int, const double)` (BulletJoint.hh:73-75):
`{gzerr << "Not implement in Bullet\n";}`. -/
def BulletJoint.SetDamping (j : BulletJoint) (_index : Int)
    (_damping : Rat) : BulletJoint × List String := (j, [notImplementMsg])

/-- `BulletJoint::GetAnchor(int) const` (BulletJoint.hh:77-79):
`{gzerr << "Not implement in Bullet\n"; return math::Vector3();}` —
a `const` member, so the joint state cannot change; the model returns
the value and the emitted message. -/
def BulletJoint.GetAnchor (_j : BulletJoint) (_index : Int) :
    Vector3 × List String := (Vector3.ctor, [notImplementMsg])

/-- `BulletJoint::GetLinkForce(unsigned int) const` (BulletJoint.hh:82-84):
`{gzerr << "Not implement in Bullet\n"; return math::Vector3();}`. -/
def BulletJoint.GetLinkForce (_j : BulletJoint) (_index : Nat) :
    Vector3 × List String := (Vector3.ctor, [notImplementMsg])

/-- `BulletJoint::GetLinkTorque(unsigned int) const` (BulletJoint.hh:87-89):
`{gzerr << "Not implement in Bullet\n"; return math::Vector3();}`. -/
def BulletJoint.GetLinkTorque (_j : BulletJoint) (_index : Nat) :
    Vector3 × List String := (Vector3.ctor, [notImplementMsg])

/-- `BulletJoint::SetAttribute(Attribute, int, double)`
(BulletJoint.hh:91-92): `{gzerr << "Not implement in Bullet\n";}`. -/
def BulletJoint.SetAttribute (j : BulletJoint) (_attr : JointAttribute)
    (_index : Int) (_value : Rat) : BulletJoint × List String :=
  (j, [notImplementMsg])

/-!
### Helper lemmas about the contact map operations
-/

lemma insert_find (m : ContactMap) (a b k : Link) :
    (m.insert a b).find k =
      if k = a then (if (m.find a).isSome then m.find a else some b)
      else m.find k := rfl

lemma insert_find_of_isSome (m : ContactMap) (a b k : Link)
    (h : (m.find k).isSome) : (m.insert a b).find k = m.find k := by
  rw [insert_find]
  by_cases hk : k = a
  · subst hk
    simp [h]
  · simp [hk]

lemma addFirst_of_isSome (m : ContactMap) (a b : Link)
    (h : (m.find a).isSome) : addFirst m a b = m := by
  simp [addFirst, h]

lemma addFirst_of_none (m : ContactMap) (a b : Link)
    (h : m.find a = none) : addFirst m a b = m.insert a b := by
  simp [addFirst, h]

lemma addFirst_find_of_isSome (m : ContactMap) (a b k : Link)
    (h : (m.find k).isSome) : (addFirst m a b).find k = m.find k := by
  unfold addFirst
  split
  · rfl
  · exact insert_find_of_isSome m a b k h

lemma addFirst_isSome_of_isSome (m : ContactMap) (a b k : Link)
    (h : (m.find k).isSome) : ((addFirst m a b).find k).isSome := by
  rw [addFirst_find_of_isSome m a b k h]
  exact h

lemma addFirst_find_self_isSome (m : ContactMap) (a b : Link) :
    ((addFirst m a b).find a).isSome := by
  unfold addFirst
  split
  · assumption
  · rename_i h
    rw [insert_find]
    simp at h
    simp [h]

lemma addFirst_find_cases (m : ContactMap) (a b k v : Link)
    (h : (addFirst m a b).find k = some v) :
    m.find k = some v ∨ (k = a ∧ v = b ∧ m.find a = none) := by
  unfold addFirst at h
  split at h
  · exact Or.inl h
  · rename_i hnone
    simp only [Option.isSome_iff_exists, not_exists] at hnone
    have hfa : m.find a = none := by
      cases hfa : m.find a with
      | none => rfl
      | some w => exact absurd hfa (hnone w)
    rw [insert_find] at h
    by_cases hk : k = a
    · subst hk
      rw [hfa] at h
      simp at h
      exact Or.inr ⟨rfl, h.symm, hfa⟩
    · rw [if_neg hk] at h
      exact Or.inl h

lemma addLinkPair_find_of_isSome (m : ContactMap) (l1 l2 k : Link)
    (h : (m.find k).isSome) : (AddLinkPair m l1 l2).find k = m.find k := by
  unfold AddLinkPair
  rw [addFirst_find_of_isSome _ l2 l1 k
        (addFirst_isSome_of_isSome m l1 l2 k h),
      addFirst_find_of_isSome m l1 l2 k h]

lemma addLinkPair_keys_isSome (m : ContactMap) (l1 l2 : Link) :
    ((AddLinkPair m l1 l2).find l1).isSome ∧
      ((AddLinkPair m l1 l2).find l2).isSome := by
  unfold AddLinkPair
  constructor
  · exact addFirst_isSome_of_isSome _ l2 l1 l1
      (addFirst_find_self_isSome m l1 l2)
  · exact addFirst_find_self_isSome _ l2 l1

lemma addLinkPair_find_cases (m : ContactMap) (l1 l2 k v : Link)
    (h : (AddLinkPair m l1 l2).find k = some v) :
    m.find k = some v ∨ (k = l1 ∧ v = l2) ∨ (k = l2 ∧ v = l1) := by
  unfold AddLinkPair at h
  rcases addFirst_find_cases _ l2 l1 k v h with h2 | ⟨hk, hv, _⟩
  · rcases addFirst_find_cases m l1 l2 k v h2 with h3 | ⟨hk, hv, _⟩
    · exact Or.inl h3
    · exact Or.inr (Or.inl ⟨hk, hv⟩)
  · exact Or.inr (Or.inr ⟨hk, hv⟩)

lemma areTouching_iff (m : ContactMap) (a b : Link) :
    AreTouching m a b = true ↔ m.find a = some b ∨ m.find b = some a := by
  unfold AreTouching
  by_cases h1 : m.find a = some b
  · simp [h1]
  · by_cases h2 : m.find b = some a
    · simp [h1, h2]
    · simp [h1, h2]

lemma ContactMap.ext {m1 m2 : ContactMap} (h : ∀ k, m1.find k = m2.find k) :
    m1 = m2 := funext h

lemma insert_find_self_of_none (m : ContactMap) (a b : Link)
    (h : m.find a = none) : (m.insert a b).find a = some b := by
  rw [insert_find]
  simp [h]

lemma insert_find_of_ne (m : ContactMap) (a b k : Link) (h : k ≠ a) :
    (m.insert a b).find k = m.find k := by
  rw [insert_find, if_neg h]

lemma addFirst_find_of_ne (m : ContactMap) (a b k : Link) (h : k ≠ a) :
    (addFirst m a b).find k = m.find k := by
  unfold addFirst
  split
  · rfl
  · exact insert_find_of_ne m a b k h

lemma addLinkPair_of_both_isSome (m : ContactMap) (l1 l2 : Link)
    (h1 : (m.find l1).isSome) (h2 : (m.find l2).isSome) :
    AddLinkPair m l1 l2 = m := by
  unfold AddLinkPair
  rw [addFirst_of_isSome m l1 l2 h1, addFirst_of_isSome m l2 l1 h2]

lemma empty_find (k : Link) : ContactMap.empty.find k = none := rfl

lemma foldl_find_cases (calls : List (Link × Link)) (m : ContactMap)
    (k v : Link)
    (h : (calls.foldl (fun m p => AddLinkPair m p.1 p.2) m).find k = some v) :
    m.find k = some v ∨ (k, v) ∈ calls ∨ (v, k) ∈ calls := by
  induction calls generalizing m with
  | nil => exact Or.inl h
  | cons p rest ih =>
    rcases ih (AddLinkPair m p.1 p.2) h with h1 | h1 | h1
    · rcases addLinkPair_find_cases m p.1 p.2 k v h1 with
        h2 | ⟨hk, hv⟩ | ⟨hk, hv⟩
      · exact Or.inl h2
      · exact Or.inr (Or.inl (by simp [hk, hv]))
      · exact Or.inr (Or.inr (by simp [hk, hv]))
    · exact Or.inr (Or.inl (List.mem_cons_of_mem _ h1))
    · exact Or.inr (Or.inr (List.mem_cons_of_mem _ h1))

lemma runAdds_find_mem (calls : List (Link × Link)) (k v : Link)
    (h : (runAdds calls).find k = some v) :
    (k, v) ∈ calls ∨ (v, k) ∈ calls := by
  rcases foldl_find_cases calls ContactMap.empty k v h with h0 | h1 | h1
  · rw [empty_find] at h0
    exact absurd h0 (by simp)
  · exact Or.inl h1
  · exact Or.inr h1

/-- Every value stored in the contact map is itself a key: when
`AddLinkPair` records `k ↦ v` it also ensures `v` is a key (though not
necessarily with partner `k`). -/
def ValueKeyClosed (m : ContactMap) : Prop :=
  ∀ k v, m.find k = some v → ((m.find v).isSome : Prop)

lemma valueKeyClosed_empty : ValueKeyClosed ContactMap.empty := by
  intro k v h
  rw [empty_find] at h
  exact absurd h (by simp)

lemma valueKeyClosed_addLinkPair (m : ContactMap) (l1 l2 : Link)
    (h : ValueKeyClosed m) : ValueKeyClosed (AddLinkPair m l1 l2) := by
  intro k v hkv
  rcases addLinkPair_find_cases m l1 l2 k v hkv with h1 | ⟨_, hv⟩ | ⟨_, hv⟩
  · have hs := h k v h1
    rw [addLinkPair_find_of_isSome m l1 l2 v hs]
    exact hs
  · rw [hv]
    exact (addLinkPair_keys_isSome m l1 l2).2
  · rw [hv]
    exact (addLinkPair_keys_isSome m l1 l2).1

lemma valueKeyClosed_foldl (calls : List (Link × Link)) (m : ContactMap)
    (h : ValueKeyClosed m) :
    ValueKeyClosed (calls.foldl (fun m p => AddLinkPair m p.1 p.2) m) := by
  induction calls generalizing m with
  | nil => exact h
  | cons p rest ih =>
    exact ih (AddLinkPair m p.1 p.2) (valueKeyClosed_addLinkPair m p.1 p.2 h)

lemma valueKeyClosed_runAdds (calls : List (Link × Link)) :
    ValueKeyClosed (runAdds calls) :=
  valueKeyClosed_foldl calls ContactMap.empty valueKeyClosed_empty

/-!
### Claim theorems
-/

/-- C1 (counterexample): the Bullet backend's unsupported getters do NOT
return a sentinel distinguishable from a valid value — `GetAnchor`,
`GetLinkForce` and `GetLinkTorque` each return a default-constructed
`math::Vector3()`, i.e. exactly the zero vector the claim rules out, which
coincides with a perfectly valid anchor/force/torque value. -/
theorem bulletJoint_getters_return_zero_vector :
    (BulletJoint.GetAnchor ⟨0, 0, 0⟩ 0).1 = Vector3.mk 0 0 0 ∧
    (BulletJoint.GetLinkForce ⟨0, 0, 0⟩ 0).1 = Vector3.mk 0 0 0 ∧
    (BulletJoint.GetLinkTorque ⟨0, 0, 0⟩ 0).1 = Vector3.mk 0 0 0 :=
  ⟨rfl, rfl, rfl⟩

/-- C1 (amended): every unsupported Bullet joint operation leaves the joint
state unchanged and signals unsupportedness only by emitting the
`"Not implement in Bullet"` message on the error stream; the
value-returning operations return a default-constructed zero vector, which
is not distinguishable from a valid result. -/
theorem bulletJoint_unsupported_ops_log_and_preserve_state :
    ∀ (j : BulletJoint) (i : Int) (u : Nat) (anchor : Vector3)
      (attr : JointAttribute) (d : Rat),
      (j.SetAnchor i anchor).1 = j ∧
      (j.SetAnchor i anchor).2 = [notImplementMsg] ∧
      (j.SetDamping i d).1 = j ∧
      (j.SetDamping i d).2 = [notImplementMsg] ∧
      (j.SetAttribute attr i d).1 = j ∧
      (j.SetAttribute attr i d).2 = [notImplementMsg] ∧
      j.GetAnchor i = (Vector3.ctor, [notImplementMsg]) ∧
      j.GetLinkForce u = (Vector3.ctor, [notImplementMsg]) ∧
      j.GetLinkTorque u = (Vector3.ctor, [notImplementMsg]) :=
  fun _ _ _ _ _ _ => ⟨rfl, rfl, rfl, rfl, rfl, rfl, rfl, rfl, rfl⟩

/-- C2 (counterexample): in the reachable registry state built by
`AddLinkPair(0,2); AddLinkPair(1,3)`, the links `0 ≠ 1` both already have a
recorded partner, so a subsequent `AddLinkPair(0,1)` is a double no-op and
`AreTouching(0,1)` / `AreTouching(1,0)` remain `false`. -/
theorem addLinkPair_touching_fails_when_both_linked :
    (0 : Link) ≠ 1 ∧
    AreTouching (AddLinkPair (runAdds [(0, 2), (1, 3)]) 0 1) 0 1 = false ∧
    AreTouching (AddLinkPair (runAdds [(0, 2), (1, 3)]) 0 1) 1 0 = false := by
  decide

/-- C2 (amended): for distinct links `a ≠ b`, if before the call at least
one of them has no recorded partner, or one of them already records the
other as its partner, then immediately after `AddLinkPair(a,b)` both
`AreTouching(a,b)` and `AreTouching(b,a)` return `true`. -/
theorem addLinkPair_touching_of_free_or_matching (m : ContactMap)
    (a b : Link) (hab : a ≠ b)
    (h : m.find a = none ∨ m.find b = none ∨
         m.find a = some b ∨ m.find b = some a) :
    AreTouching (AddLinkPair m a b) a b = true ∧
      AreTouching (AddLinkPair m a b) b a = true := by
  have key : (AddLinkPair m a b).find a = some b ∨
      (AddLinkPair m a b).find b = some a := by
    rcases h with h | h | h | h
    · left
      unfold AddLinkPair
      rw [addFirst_of_none m a b h]
      have hs : ((m.insert a b).find a).isSome := by
        rw [insert_find_self_of_none m a b h]
        rfl
      rw [addFirst_find_of_isSome _ b a a hs]
      exact insert_find_self_of_none m a b h
    · right
      unfold AddLinkPair
      have h1 : (addFirst m a b).find b = none := by
        rw [addFirst_find_of_ne m a b b (Ne.symm hab)]
        exact h
      rw [addFirst_of_none _ b a h1]
      exact insert_find_self_of_none _ b a h1
    · left
      have hs : (m.find a).isSome := by rw [h]; rfl
      rw [addLinkPair_find_of_isSome m a b a hs]
      exact h
    · right
      have hs : (m.find b).isSome := by rw [h]; rfl
      rw [addLinkPair_find_of_isSome m a b b hs]
      exact h
  constructor
  · rw [areTouching_iff]
    exact key
  · rw [areTouching_iff]
    exact key.symm

/-- Witness for the amended C2 at the empty registry with `a = 0`, `b = 1`. -/
theorem addLinkPair_touching_of_free_or_matching_witness :
    AreTouching (AddLinkPair ContactMap.empty 0 1) 0 1 = true ∧
      AreTouching (AddLinkPair ContactMap.empty 0 1) 1 0 = true :=
  addLinkPair_touching_of_free_or_matching ContactMap.empty 0 1
    (by decide) (Or.inl rfl)

/-- C3 (counterexample): after `AddLinkPair(0,1); AddLinkPair(0,2)` starting
from the empty registry, the directed entry `2 → 0` is present but the
symmetric entry `0 → 2` is not (`0` still maps to `1`). -/
theorem contactPairs_symmetry_fails :
    (runAdds [(0, 1), (0, 2)]).find 2 = some 0 ∧
      ¬((runAdds [(0, 1), (0, 2)]).find 0 = some 2) := by
  decide

/-- C3 (amended): in every registry state reachable from the empty registry
by `AddLinkPair` calls, if a directed entry `k → v` is present then `v` is
also a key of the contact map (some directed entry `v → w` is present),
though not necessarily with partner `k`. -/
theorem contactPairs_values_are_keys (calls : List (Link × Link))
    (k v : Link) (h : (runAdds calls).find k = some v) :
    ((runAdds calls).find v).isSome :=
  valueKeyClosed_runAdds calls k v h

/-- Witness for the amended C3 on the counterexample trace: `2 → 0` is
present, and indeed `0` is a key. -/
theorem contactPairs_values_are_keys_witness :
    (runAdds [(0, 1), (0, 2)]).find 2 = some 0 ∧
      ((runAdds [(0, 1), (0, 2)]).find 0).isSome :=
  ⟨by decide, contactPairs_values_are_keys [(0, 1), (0, 2)] 2 0 (by decide)⟩

/-- C4 (confirmed): `AddLinkPair(a,b)` is idempotent — after one call both
`a` and `b` are keys, so the second call's two guarded inserts both skip
and the `contactPairs` map is exactly the same. -/
theorem addLinkPair_idempotent (m : ContactMap) (a b : Link) :
    AddLinkPair (AddLinkPair m a b) a b = AddLinkPair m a b :=
  addLinkPair_of_both_isSome (AddLinkPair m a b) a b
    (addLinkPair_keys_isSome m a b).1 (addLinkPair_keys_isSome m a b).2

/-- C5 (confirmed): if no `AddLinkPair` call involving the pair `{a, b}` in
either argument order occurs in the call sequence from the empty registry,
then `AreTouching(a,b)` returns `false`. -/
theorem areTouching_false_of_never_added (calls : List (Link × Link))
    (a b : Link) (hab : (a, b) ∉ calls) (hba : (b, a) ∉ calls) :
    AreTouching (runAdds calls) a b = false := by
  cases hAT : AreTouching (runAdds calls) a b with
  | false => rfl
  | true =>
    exfalso
    rcases (areTouching_iff (runAdds calls) a b).mp hAT with h | h
    · rcases runAdds_find_mem calls a b h with hm | hm
      · exact hab hm
      · exact hba hm
    · rcases runAdds_find_mem calls b a h with hm | hm
      · exact hba hm
      · exact hab hm

/-- Witness for C5: links `0` and `1` never appear together in the trace
`[(2,3)]`, and indeed `AreTouching(0,1)` is `false` there. -/
theorem areTouching_false_of_never_added_witness :
    ((0 : Link), (1 : Link)) ∉ [((2 : Link), (3 : Link))] ∧
      ((1 : Link), (0 : Link)) ∉ [((2 : Link), (3 : Link))] ∧
      AreTouching (runAdds [(2, 3)]) 0 1 = false :=
  ⟨by decide, by decide,
    areTouching_false_of_never_added [(2, 3)] 0 1 (by decide) (by decide)⟩

/-- C6 (confirmed): every base-contract engine-parameter getter returns the
listed neutral default, for every engine state. -/
theorem engine_getters_return_neutral_defaults :
    ∀ e : PhysicsEngine,
      e.GetWorldCFM = 0 ∧ e.GetWorldERP = 0 ∧
      e.GetAutoDisableFlag = false ∧ e.GetSORPGSIters = 0 ∧
      e.GetSORPGSW = 0 ∧ e.GetContactMaxCorrectingVel = 0 ∧
      e.GetContactSurfaceLayer = 0 ∧ e.GetMaxContacts = 0 :=
  fun _ => ⟨rfl, rfl, rfl, rfl, rfl, rfl, rfl, rfl⟩

/-- C7 (confirmed): every base-contract engine-parameter setter accepts any
argument, leaves the whole engine state unchanged, and in particular the
corresponding getter returns the same value before and after the call. -/
theorem engine_setters_are_noops :
    ∀ (e : PhysicsEngine) (d w vel layer maxC : Rat) (fl : Bool) (n : Nat),
      e.SetWorldCFM d = e ∧
      (e.SetWorldCFM d).GetWorldCFM = e.GetWorldCFM ∧
      e.SetWorldERP d = e ∧
      (e.SetWorldERP d).GetWorldERP = e.GetWorldERP ∧
      e.SetAutoDisableFlag fl = e ∧
      (e.SetAutoDisableFlag fl).GetAutoDisableFlag = e.GetAutoDisableFlag ∧
      e.SetSORPGSIters n = e ∧
      (e.SetSORPGSIters n).GetSORPGSIters = e.GetSORPGSIters ∧
      e.SetSORPGSW w = e ∧
      (e.SetSORPGSW w).GetSORPGSW = e.GetSORPGSW ∧
      e.SetContactMaxCorrectingVel vel = e ∧
      (e.SetContactMaxCorrectingVel vel).GetContactMaxCorrectingVel =
        e.GetContactMaxCorrectingVel ∧
      e.SetContactSurfaceLayer layer = e ∧
      (e.SetContactSurfaceLayer layer).GetContactSurfaceLayer =
        e.GetContactSurfaceLayer ∧
      e.SetMaxContacts maxC = e ∧
      (e.SetMaxContacts maxC).GetMaxContacts = e.GetMaxContacts :=
  fun _ _ _ _ _ _ _ _ =>
    ⟨rfl, rfl, rfl, rfl, rfl, rfl, rfl, rfl,
     rfl, rfl, rfl, rfl, rfl, rfl, rfl, rfl⟩

/-- C8 (confirmed): the base-class `Reset()` and `UpdatePhysics()` have
empty bodies, so both leave every piece of engine state — gravity, step
time, parameters, contact registry — unchanged. -/
theorem reset_and_updatePhysics_are_noops :
    ∀ e : PhysicsEngine, e.Reset = e ∧ e.UpdatePhysics = e :=
  fun _ => ⟨rfl, rfl⟩

/-- C9 (confirmed): `AddLinkPair` is commutative in its arguments — for
every registry state, `AddLinkPair(a,b)` and `AddLinkPair(b,a)` produce
the same `contactPairs` map. -/
theorem addLinkPair_comm (m : ContactMap) (a b : Link) :
    AddLinkPair m a b = AddLinkPair m b a := by
  by_cases ha : (m.find a).isSome
  · by_cases hb : (m.find b).isSome
    · rw [addLinkPair_of_both_isSome m a b ha hb,
          addLinkPair_of_both_isSome m b a hb ha]
    · have hbn : m.find b = none := Option.not_isSome_iff_eq_none.mp hb
      have hne : a ≠ b := fun he => hb (he ▸ ha)
      rw [AddLinkPair, addFirst_of_isSome m a b ha,
          addFirst_of_none m b a hbn]
      rw [AddLinkPair, addFirst_of_none m b a hbn]
      have hs : ((m.insert b a).find a).isSome := by
        rw [insert_find_of_ne m b a a hne]
        exact ha
      rw [addFirst_of_isSome _ a b hs]
  · have han : m.find a = none := Option.not_isSome_iff_eq_none.mp ha
    by_cases hb : (m.find b).isSome
    · have hne : b ≠ a := fun he => ha (he ▸ hb)
      rw [AddLinkPair, addFirst_of_none m a b han]
      have hs : ((m.insert a b).find b).isSome := by
        rw [insert_find_of_ne m a b b hne]
        exact hb
      rw [addFirst_of_isSome _ b a hs]
      rw [AddLinkPair, addFirst_of_isSome m b a hb,
          addFirst_of_none m a b han]
    · have hbn : m.find b = none := Option.not_isSome_iff_eq_none.mp hb
      by_cases hab : a = b
      · rw [hab]
      · rw [AddLinkPair, addFirst_of_none m a b han]
        have h1 : (m.insert a b).find b = none := by
          rw [insert_find_of_ne m a b b (Ne.symm hab)]
          exact hbn
        rw [addFirst_of_none _ b a h1]
        rw [AddLinkPair, addFirst_of_none m b a hbn]
        have h2 : (m.insert b a).find a = none := by
          rw [insert_find_of_ne m b a a hab]
          exact han
        rw [addFirst_of_none _ a b h2]
        apply ContactMap.ext
        intro k
        by_cases hk1 : k = a
        · rw [hk1, insert_find_of_ne _ b a a hab,
              insert_find_self_of_none m a b han,
              insert_find_self_of_none _ a b h2]
        · by_cases hk2 : k = b
          · rw [hk2, insert_find_self_of_none _ b a h1,
                insert_find_of_ne _ a b b (Ne.symm hab),
                insert_find_self_of_none m b a hbn]
          · rw [insert_find_of_ne _ b a k hk2,
                insert_find_of_ne m a b k hk1,
                insert_find_of_ne _ a b k hk1,
                insert_find_of_ne m b a k hk2]

/-- C10 (confirmed): `AddLinkPair` never overwrites an existing
registration — every link already present as a key keeps exactly its old
partner through any `AddLinkPair(x,y)` call. -/
theorem contactPairs_no_overwrite (m : ContactMap) (x y k : Link)
    (h : (m.find k).isSome) : (AddLinkPair m x y).find k = m.find k :=
  addLinkPair_find_of_isSome m x y k h

/-- Witness for C10: in the registry built by `AddLinkPair(0,1)`, the key
`0` keeps its partner `1` through a later `AddLinkPair(0,5)`. -/
theorem contactPairs_no_overwrite_witness :
    ((runAdds [(0, 1)]).find 0).isSome ∧
      (AddLinkPair (runAdds [(0, 1)]) 0 5).find 0 = (runAdds [(0, 1)]).find 0 :=
  ⟨by decide, contactPairs_no_overwrite (runAdds [(0, 1)]) 0 5 0 (by decide)⟩

end Gazebo
